import Mathlib

/-!
Verification development for the Torn bot monitoring core
(`src/modules/war.py` and `src/modules/bounty.py`).

The Python source is shallowly embedded: pure computations become Lean
functions, the stateful monitor steps become explicit state-passing
functions, machine integers become `Nat`/`Int`, Python strings become
`List Char`, rationals stand in for the float arithmetic of the source,
and effectful calls (HTTP, Discord) are modelled by explicit
outcome parameters describing the environment's response.
-/

/- ---------------------------------------------------------------------
   War status classification (war.py, `WarStatus`, `get_war_data`
   lines 260-275)
   --------------------------------------------------------------------- -/

/-- `class WarStatus(Enum)` from war.py. -/
inductive WarStatus where
  | scheduled
  | active
  | ended
  | not_found
deriving DecidableEq, Repr

/-- The status derivation in `TornAPIClient.get_war_data` (war.py 260-275):

    if start_timestamp > 0:
        if start_timestamp > now: SCHEDULED
        elif end_timestamp > 0 and end_timestamp <= now: ENDED
        else: ACTIVE
    else: NOT_FOUND

Timestamps are Unix seconds; `0` encodes an absent/unknown value (the
source coerces `None` and non-numeric `end` values to `0` beforehand). -/
def classifyWarStatus (start_timestamp end_timestamp now : Nat) : WarStatus :=
  if 0 < start_timestamp then
    if now < start_timestamp then WarStatus.scheduled
    else if 0 < end_timestamp ∧ end_timestamp ≤ now then WarStatus.ended
    else WarStatus.active
  else WarStatus.not_found

/-- C1: for every (start, end, now) triple the classification returns exactly
one of NOT_FOUND/SCHEDULED/ACTIVE/ENDED; ACTIVE implies start ≤ now and
(end unset or end > now); SCHEDULED implies start > now; ENDED implies
end ≤ now; and the boundaries are deterministic: `start = now` (for a set
start, with no elapsed end) classifies ACTIVE, and `end = now` (for a set
end on a started war) classifies ENDED. -/
theorem c1_war_status_classification (s e n : Nat) :
    (classifyWarStatus s e n = WarStatus.not_found ∨
     classifyWarStatus s e n = WarStatus.scheduled ∨
     classifyWarStatus s e n = WarStatus.active ∨
     classifyWarStatus s e n = WarStatus.ended) ∧
    (classifyWarStatus s e n = WarStatus.active → s ≤ n ∧ (e = 0 ∨ n < e)) ∧
    (classifyWarStatus s e n = WarStatus.scheduled → n < s) ∧
    (classifyWarStatus s e n = WarStatus.ended → e ≤ n) ∧
    (0 < s → s = n → (e = 0 ∨ n < e) → classifyWarStatus s e n = WarStatus.active) ∧
    (0 < s → s ≤ n → 0 < e → e = n → classifyWarStatus s e n = WarStatus.ended) := by
  unfold classifyWarStatus
  split_ifs with h1 h2 h3 <;> simp_all <;> omega

/-- Witness for C1 at concrete boundary inputs: `start = now = 100` with no
end classifies ACTIVE, and `end = now = 200` with `start = 100` classifies
ENDED. -/
theorem c1_war_status_classification_witness :
    classifyWarStatus 100 0 100 = WarStatus.active ∧
    classifyWarStatus 100 200 200 = WarStatus.ended :=
  ⟨(c1_war_status_classification 100 0 100).2.2.2.2.1 (by decide) rfl (Or.inl rfl),
   (c1_war_status_classification 100 200 200).2.2.2.2.2 (by decide) (by decide) (by decide) rfl⟩

/- ---------------------------------------------------------------------
   API client request loop (war.py `TornAPIClient._make_request` 159-194,
   bounty.py `TornAPIClient._make_request` 153-187)
   --------------------------------------------------------------------- -/

/-- A parsed JSON object body, abstracted to the set of its top-level field
names (the only aspect the claims inspect is presence of an `error` field). -/
structure Payload where
  fields : List String
deriving DecidableEq, Repr

/-- Whether the JSON object contains an `error` field (the Torn error
envelope marker). -/
def Payload.hasErrorField (p : Payload) : Bool := p.fields.contains "error"

/-- Outcome of one HTTP GET attempt: a 200 with a parsed body, a non-200
status code, or a transport failure (`aiohttp.ClientError`). -/
inductive HttpResp where
  | ok (body : Payload)
  | status (code : Nat)
  | netErr
deriving DecidableEq, Repr

/-- Result of `_make_request`: the returned payload, the `None` result for
404, the immediately raised `APIError` for 403, or the `APIError` raised
after the retry loop is exhausted. -/
inductive ReqResult where
  | success (data : Payload)
  | notFound
  | authError
  | fetchFailed
deriving DecidableEq, Repr

/-- Prefix a backoff wait (seconds spent in `asyncio.sleep`) onto a loop
outcome's wait trace. -/
def addWait (w : Nat) (r : ReqResult × List Nat) : ReqResult × List Nat :=
  (r.1, w :: r.2)

/-- `max_retries = 3` in war.py. -/
def maxRetriesWar : Nat := 3

/-- The retry loop of war.py `_make_request` (lines 159-194).
`resps i` is the HTTP outcome of attempt `i`; `fuel` is the number of loop
iterations left (`maxRetriesWar` at entry), the pair returned is the result
together with the trace of backoff sleeps performed. A 200 returns the body;
429 sleeps `2^attempt` and retries; 502/503/504 sleep `2^attempt` between
attempts; 403 raises immediately; 404 returns `None`; other statuses retry
without sleeping; transport errors sleep `2^attempt` between attempts;
falling off the loop raises `APIError`. -/
def makeRequestWarAux (resps : Nat → HttpResp) : Nat → Nat → ReqResult × List Nat
  | _, 0 => (ReqResult.fetchFailed, [])
  | attempt, fuel + 1 =>
    match resps attempt with
    | HttpResp.ok body => (ReqResult.success body, [])
    | HttpResp.status 429 => addWait (2 ^ attempt) (makeRequestWarAux resps (attempt + 1) fuel)
    | HttpResp.status c =>
      if c = 502 ∨ c = 503 ∨ c = 504 then
        if attempt < maxRetriesWar - 1 then
          addWait (2 ^ attempt) (makeRequestWarAux resps (attempt + 1) fuel)
        else makeRequestWarAux resps (attempt + 1) fuel
      else if c = 403 then (ReqResult.authError, [])
      else if c = 404 then (ReqResult.notFound, [])
      else makeRequestWarAux resps (attempt + 1) fuel
    | HttpResp.netErr =>
      if attempt < maxRetriesWar - 1 then
        addWait (2 ^ attempt) (makeRequestWarAux resps (attempt + 1) fuel)
      else makeRequestWarAux resps (attempt + 1) fuel

/-- war.py `_make_request`: run the loop from attempt 0 with 3 attempts. -/
def makeRequestWar (resps : Nat → HttpResp) : ReqResult × List Nat :=
  makeRequestWarAux resps 0 maxRetriesWar

/-- `retries = 3` default in bounty.py `_make_request`. -/
def retriesBounty : Nat := 3

/-- The retry loop of bounty.py `_make_request` (lines 153-187). Identical
to the war.py loop except that the 429 wait is capped (`min (2^attempt) 60`)
and unrecognized statuses also back off `2^attempt` between attempts. -/
def makeRequestBountyAux (resps : Nat → HttpResp) : Nat → Nat → ReqResult × List Nat
  | _, 0 => (ReqResult.fetchFailed, [])
  | attempt, fuel + 1 =>
    match resps attempt with
    | HttpResp.ok body => (ReqResult.success body, [])
    | HttpResp.status 429 =>
      addWait (min (2 ^ attempt) 60) (makeRequestBountyAux resps (attempt + 1) fuel)
    | HttpResp.status c =>
      if c = 502 ∨ c = 503 ∨ c = 504 then
        if attempt < retriesBounty - 1 then
          addWait (2 ^ attempt) (makeRequestBountyAux resps (attempt + 1) fuel)
        else makeRequestBountyAux resps (attempt + 1) fuel
      else if c = 403 then (ReqResult.authError, [])
      else if c = 404 then (ReqResult.notFound, [])
      else if attempt < retriesBounty - 1 then
        addWait (2 ^ attempt) (makeRequestBountyAux resps (attempt + 1) fuel)
      else makeRequestBountyAux resps (attempt + 1) fuel
    | HttpResp.netErr =>
      if attempt < retriesBounty - 1 then
        addWait (2 ^ attempt) (makeRequestBountyAux resps (attempt + 1) fuel)
      else makeRequestBountyAux resps (attempt + 1) fuel

/-- bounty.py `_make_request`: run the loop from attempt 0 with 3 attempts. -/
def makeRequestBounty (resps : Nat → HttpResp) : ReqResult × List Nat :=
  makeRequestBountyAux resps 0 retriesBounty

/-- A 200 response body that does contain the Torn `error` envelope. -/
def errorEnvelopeBody : Payload := ⟨["error"]⟩

/-- Responses agreeing on every attempt the loop can consume produce the
same loop outcome (war.py loop). -/
theorem makeRequestWarAux_ext (r r' : Nat → HttpResp) :
    ∀ fuel attempt, (∀ i, attempt ≤ i → i < attempt + fuel → r i = r' i) →
    makeRequestWarAux r attempt fuel = makeRequestWarAux r' attempt fuel := by
  intro fuel
  induction fuel with
  | zero => intro attempt _; rfl
  | succ n ih =>
    intro attempt h
    have ha : r attempt = r' attempt := h attempt le_rfl (by omega)
    have hrec := ih (attempt + 1) (fun i h1 h2 => h i (by omega) (by omega))
    simp only [makeRequestWarAux, ha, hrec]

/-- Responses agreeing on every attempt the loop can consume produce the
same loop outcome (bounty.py loop). -/
theorem makeRequestBountyAux_ext (r r' : Nat → HttpResp) :
    ∀ fuel attempt, (∀ i, attempt ≤ i → i < attempt + fuel → r i = r' i) →
    makeRequestBountyAux r attempt fuel = makeRequestBountyAux r' attempt fuel := by
  intro fuel
  induction fuel with
  | zero => intro attempt _; rfl
  | succ n ih =>
    intro attempt h
    have ha : r attempt = r' attempt := h attempt le_rfl (by omega)
    have hrec := ih (attempt + 1) (fun i h1 h2 => h i (by omega) (by omega))
    simp only [makeRequestBountyAux, ha, hrec]

/-- C2 counterexample: an HTTP 200 whose JSON body contains an `error`
field is returned by `_make_request` (both the war.py and the bounty.py
client) as a successful payload with no retry — it is not treated as a
failed fetch. -/
theorem c2_error_envelope_counterexample :
    errorEnvelopeBody.hasErrorField = true ∧
    makeRequestWar (fun _ => HttpResp.ok errorEnvelopeBody) =
      (ReqResult.success errorEnvelopeBody, []) ∧
    makeRequestBounty (fun _ => HttpResp.ok errorEnvelopeBody) =
      (ReqResult.success errorEnvelopeBody, []) :=
  ⟨by decide, rfl, rfl⟩

/-- C2 (amended): on HTTP 200 `_make_request` returns the parsed JSON body
to the caller as a success without inspecting it — in particular a body
containing an `error` field is passed through as a successful fetch; the
shared client performs no error-envelope detection. -/
theorem c2_error_envelope_passthrough (resps : Nat → HttpResp) (body : Payload) :
    resps 0 = HttpResp.ok body →
    makeRequestWar resps = (ReqResult.success body, []) ∧
    makeRequestBounty resps = (ReqResult.success body, []) := by
  intro h
  constructor
  · simp [makeRequestWar, maxRetriesWar, makeRequestWarAux, h]
  · simp [makeRequestBounty, retriesBounty, makeRequestBountyAux, h]

/-- Witness for C2 (amended) at a concrete envelope-bearing body. -/
theorem c2_error_envelope_passthrough_witness :
    makeRequestWar (fun _ => HttpResp.ok errorEnvelopeBody) =
      (ReqResult.success errorEnvelopeBody, []) ∧
    makeRequestBounty (fun _ => HttpResp.ok errorEnvelopeBody) =
      (ReqResult.success errorEnvelopeBody, []) :=
  c2_error_envelope_passthrough (fun _ => HttpResp.ok errorEnvelopeBody) errorEnvelopeBody rfl

/-- A status code with no dedicated branch (neither 200/429/502/503/504 nor
403/404) makes the war.py loop move to the next attempt with no backoff
sleep: the request falls past the `[502, 503, 504]` test to the log and the
403/404 checks (lines 176-185) and the loop simply iterates. -/
theorem makeRequestWarAux_status_other (resps : Nat → HttpResp) (attempt fuel c : Nat)
    (h429 : c ≠ 429) (h5 : ¬(c = 502 ∨ c = 503 ∨ c = 504)) (h403 : c ≠ 403)
    (h404 : c ≠ 404) (hr : resps attempt = HttpResp.status c) :
    makeRequestWarAux resps attempt (fuel + 1) = makeRequestWarAux resps (attempt + 1) fuel := by
  simp only [makeRequestWarAux, hr]
  split
  · rename_i heq
    exact absurd heq h5
  · rfl

/-- The same unrecognized status in the bounty.py loop reaches the tail
`if attempt < retries - 1: sleep(2 ** attempt)` (lines 175-178): it backs
off between attempts. -/
theorem makeRequestBountyAux_status_other (resps : Nat → HttpResp) (attempt fuel c : Nat)
    (h429 : c ≠ 429) (h5 : ¬(c = 502 ∨ c = 503 ∨ c = 504)) (h403 : c ≠ 403)
    (h404 : c ≠ 404) (hr : resps attempt = HttpResp.status c) :
    makeRequestBountyAux resps attempt (fuel + 1) =
      if attempt < retriesBounty - 1 then
        addWait (2 ^ attempt) (makeRequestBountyAux resps (attempt + 1) fuel)
      else makeRequestBountyAux resps (attempt + 1) fuel := by
  simp only [makeRequestBountyAux, hr]
  split
  · rename_i heq
    exact absurd heq h5
  · rfl

/-- C3 counterexample: three consecutive HTTP 500 responses — a 5xx status
— are retried to exhaustion by the war.py client with an empty backoff
trace: no `2^attempt` sleep ever happens, because 500 is not in the
`[502, 503, 504]` branch. (The bounty.py client does sleep `[1, 2]` on the
same input via its catch-all backoff.) This refutes the claim's universal
"HTTP 429 or 5xx is retried with exponential backoff of 2^attempt". -/
theorem c3_retry_policy_counterexample :
    makeRequestWar (fun _ => HttpResp.status 500) = (ReqResult.fetchFailed, []) ∧
    makeRequestBounty (fun _ => HttpResp.status 500) = (ReqResult.fetchFailed, [1, 2]) :=
  ⟨rfl, rfl⟩

/-- C3 (amended): in both `_make_request` variants, a 403 raises the auth
error on the very attempt that receives it with no further retries or
sleeps; a 404 returns the distinct not-found result (`None`); retries use a
3-attempt budget whose exhaustion raises the failure error, and the outcome
depends on at most the first 3 attempts; the `2^attempt` exponential
backoff is applied to 429 and to the 502/503/504 server errors in both
clients — but a 5xx outside that list (e.g. 500 or 501), like any other
unrecognized status, is retried with no backoff sleep by the war.py client,
while the bounty.py client backs it off `2^attempt` between attempts. -/
theorem c3_retry_policy_amended :
    (∀ resps attempt fuel, resps attempt = HttpResp.status 403 →
       makeRequestWarAux resps attempt (fuel + 1) = (ReqResult.authError, []) ∧
       makeRequestBountyAux resps attempt (fuel + 1) = (ReqResult.authError, [])) ∧
    (∀ resps attempt fuel, resps attempt = HttpResp.status 404 →
       makeRequestWarAux resps attempt (fuel + 1) = (ReqResult.notFound, []) ∧
       makeRequestBountyAux resps attempt (fuel + 1) = (ReqResult.notFound, [])) ∧
    (∀ resps, (∀ i, i < 3 → resps i = HttpResp.status 429) →
       makeRequestWar resps = (ReqResult.fetchFailed, [1, 2, 4]) ∧
       makeRequestBounty resps = (ReqResult.fetchFailed, [1, 2, 4])) ∧
    (∀ c, (c = 502 ∨ c = 503 ∨ c = 504) →
       ∀ resps, (∀ i, i < 3 → resps i = HttpResp.status c) →
       makeRequestWar resps = (ReqResult.fetchFailed, [1, 2]) ∧
       makeRequestBounty resps = (ReqResult.fetchFailed, [1, 2])) ∧
    (∀ c, c ≠ 429 → ¬(c = 502 ∨ c = 503 ∨ c = 504) → c ≠ 403 → c ≠ 404 →
       ∀ resps, (∀ i, i < 3 → resps i = HttpResp.status c) →
       makeRequestWar resps = (ReqResult.fetchFailed, []) ∧
       makeRequestBounty resps = (ReqResult.fetchFailed, [1, 2])) ∧
    (∀ r r', (∀ i, i < 3 → r i = r' i) →
       makeRequestWar r = makeRequestWar r' ∧
       makeRequestBounty r = makeRequestBounty r') := by
  refine ⟨?_, ?_, ?_, ?_, ?_, ?_⟩
  · intro resps attempt fuel h
    constructor
    · simp [makeRequestWarAux, h]
    · simp [makeRequestBountyAux, h]
  · intro resps attempt fuel h
    constructor
    · simp [makeRequestWarAux, h]
    · simp [makeRequestBountyAux, h]
  · intro resps h
    have h0 := h 0 (by omega)
    have h1 := h 1 (by omega)
    have h2 := h 2 (by omega)
    constructor
    · simp [makeRequestWar, maxRetriesWar, makeRequestWarAux, h0, h1, h2, addWait]
    · simp [makeRequestBounty, retriesBounty, makeRequestBountyAux, h0, h1, h2, addWait]
  · rintro c (rfl | rfl | rfl) resps h <;>
      (have h0 := h 0 (by omega)) <;>
      (have h1 := h 1 (by omega)) <;>
      (have h2 := h 2 (by omega)) <;>
      refine ⟨?_, ?_⟩ <;>
      simp [makeRequestWar, maxRetriesWar, makeRequestWarAux,
        makeRequestBounty, retriesBounty, makeRequestBountyAux, h0, h1, h2, addWait]
  · intro c hc429 hc5 hc403 hc404 resps h
    have e0 := h 0 (by omega)
    have e1 := h 1 (by omega)
    have e2 := h 2 (by omega)
    have w0 : makeRequestWarAux resps 0 3 = makeRequestWarAux resps 1 2 :=
      makeRequestWarAux_status_other resps 0 2 c hc429 hc5 hc403 hc404 e0
    have w1 : makeRequestWarAux resps 1 2 = makeRequestWarAux resps 2 1 :=
      makeRequestWarAux_status_other resps 1 1 c hc429 hc5 hc403 hc404 e1
    have w2 : makeRequestWarAux resps 2 1 = makeRequestWarAux resps 3 0 :=
      makeRequestWarAux_status_other resps 2 0 c hc429 hc5 hc403 hc404 e2
    have b0 : makeRequestBountyAux resps 0 3 = addWait 1 (makeRequestBountyAux resps 1 2) :=
      makeRequestBountyAux_status_other resps 0 2 c hc429 hc5 hc403 hc404 e0
    have b1 : makeRequestBountyAux resps 1 2 = addWait 2 (makeRequestBountyAux resps 2 1) :=
      makeRequestBountyAux_status_other resps 1 1 c hc429 hc5 hc403 hc404 e1
    have b2 : makeRequestBountyAux resps 2 1 = makeRequestBountyAux resps 3 0 :=
      makeRequestBountyAux_status_other resps 2 0 c hc429 hc5 hc403 hc404 e2
    constructor
    · calc makeRequestWar resps = makeRequestWarAux resps 0 3 := rfl
        _ = makeRequestWarAux resps 1 2 := w0
        _ = makeRequestWarAux resps 2 1 := w1
        _ = makeRequestWarAux resps 3 0 := w2
        _ = (ReqResult.fetchFailed, []) := rfl
    · calc makeRequestBounty resps = makeRequestBountyAux resps 0 3 := rfl
        _ = addWait 1 (makeRequestBountyAux resps 1 2) := b0
        _ = addWait 1 (addWait 2 (makeRequestBountyAux resps 2 1)) := by rw [b1]
        _ = addWait 1 (addWait 2 (makeRequestBountyAux resps 3 0)) := by rw [b2]
        _ = (ReqResult.fetchFailed, [1, 2]) := rfl
  · intro r r' h
    constructor
    · exact makeRequestWarAux_ext r r' 3 0 (fun i _ h2 => h i (by omega))
    · exact makeRequestBountyAux_ext r r' 3 0 (fun i _ h2 => h i (by omega))

/-- Witness for C3 (amended): concrete instantiations of every clause —
immediate 403, 404 as not-found, full-budget 429 and 502 backoff, and the
sleepless war.py retry of a 500 alongside the bounty.py backoff. -/
theorem c3_retry_policy_amended_witness :
    makeRequestWarAux (fun _ => HttpResp.status 403) 0 3 = (ReqResult.authError, []) ∧
    makeRequestBountyAux (fun _ => HttpResp.status 404) 1 2 = (ReqResult.notFound, []) ∧
    makeRequestWar (fun _ => HttpResp.status 429) = (ReqResult.fetchFailed, [1, 2, 4]) ∧
    makeRequestBounty (fun _ => HttpResp.status 502) = (ReqResult.fetchFailed, [1, 2]) ∧
    makeRequestWar (fun _ => HttpResp.status 500) = (ReqResult.fetchFailed, []) ∧
    makeRequestBounty (fun _ => HttpResp.status 500) = (ReqResult.fetchFailed, [1, 2]) :=
  ⟨(c3_retry_policy_amended.1 (fun _ => HttpResp.status 403) 0 2 rfl).1,
   (c3_retry_policy_amended.2.1 (fun _ => HttpResp.status 404) 1 1 rfl).2,
   (c3_retry_policy_amended.2.2.1 (fun _ => HttpResp.status 429) (fun _ _ => rfl)).1,
   (c3_retry_policy_amended.2.2.2.1 502 (Or.inl rfl)
      (fun _ => HttpResp.status 502) (fun _ _ => rfl)).2,
   (c3_retry_policy_amended.2.2.2.2.1 500 (by decide) (by decide) (by decide) (by decide)
      (fun _ => HttpResp.status 500) (fun _ _ => rfl)).1,
   (c3_retry_policy_amended.2.2.2.2.1 500 (by decide) (by decide) (by decide) (by decide)
      (fun _ => HttpResp.status 500) (fun _ _ => rfl)).2⟩

/- ---------------------------------------------------------------------
   Bounty dedup key (bounty.py `BountyInfo.unique_key`, lines 51-59)
   --------------------------------------------------------------------- -/

/-- The characters Python `str.split()` / `str.strip()` treat as
whitespace (ASCII range). -/
def isPySpace (c : Char) : Bool :=
  c = ' ' || c = '\t' || c = '\n' || c = '\r' || c = '\x0b' || c = '\x0c'

/-- Python `str.strip()`: drop leading and trailing whitespace. -/
def pyStrip (s : List Char) : List Char :=
  ((s.dropWhile isPySpace).reverse.dropWhile isPySpace).reverse

/-- Python `str.lower()` (ASCII case folding). -/
def lowerChars (s : List Char) : List Char := s.map Char.toLower

/-- Tokenizer worker for Python `str.split()` with no separator argument:
splits on whitespace runs, never yielding empty tokens. `acc` holds the
current token reversed. -/
def pySplitAux : List Char → List Char → List (List Char)
  | [], acc => if acc = [] then [] else [acc.reverse]
  | c :: cs, acc =>
    if isPySpace c then
      if acc = [] then pySplitAux cs [] else acc.reverse :: pySplitAux cs []
    else pySplitAux cs (c :: acc)

/-- Python `str.split()` (no separator). -/
def pySplit (s : List Char) : List (List Char) := pySplitAux s []

/-- Python `" ".join(tokens)`. -/
def joinSpace : List (List Char) → List Char
  | [] => []
  | [t] => t
  | t :: ts => t ++ ' ' :: joinSpace ts

/-- `@dataclass BountyInfo` from bounty.py (strings as `List Char`,
timestamps as `Nat`; the `bounty_type` field is always `ACTIVE` in the
source and is omitted). -/
structure BountyInfo where
  target_id : Int
  target_name : List Char
  reward : Int
  quantity : Int
  lister_id : Option Int
  lister_name : Option (List Char)
  is_anonymous : Bool
  reason : List Char
  posted_time : Option Nat
deriving DecidableEq, Repr

/-- The `self.lister_name or "unknown"` fallback chain tail: Python `or`
takes the name when it is present and non-empty, else `"unknown"`. -/
def listerNameOr (b : BountyInfo) : List Char :=
  match b.lister_name with
  | some s => if s = [] then "unknown".data else s
  | none => "unknown".data

/-- `str(self.lister_id or self.lister_name or "unknown")`: a present,
non-zero lister id wins (stringified), else the name fallback chain. -/
def listerRaw (b : BountyInfo) : List Char :=
  match b.lister_id with
  | some i => if i = 0 then listerNameOr b else (toString i).data
  | none => listerNameOr b

/-- `lister = "anon" if self.is_anonymous else str(...).strip().lower()`
from `unique_key`. -/
def normLister (b : BountyInfo) : List Char :=
  if b.is_anonymous then "anon".data else lowerChars (pyStrip (listerRaw b))

/-- `reason_normalized = " ".join(self.reason.strip().split()).lower()
if self.reason else ""` from `unique_key`. -/
def normReason (r : List Char) : List Char :=
  if r = [] then [] else lowerChars (joinSpace (pySplit (pyStrip r)))

/-- `key_data = f"{target_id}|{reward}|{quantity}|{lister}|{reason_normalized}"`
from `unique_key`. -/
def keyData (b : BountyInfo) : List Char :=
  (toString b.target_id).data ++ '|' :: (toString b.reward).data
    ++ '|' :: (toString b.quantity).data
    ++ '|' :: normLister b ++ '|' :: normReason b.reason

/-- `hashlib.md5(key_data.encode()).hexdigest()`: the digest is some fixed
total function of the key data; every dedup property below holds for an
arbitrary such function, so it is taken as a parameter. -/
def unique_key (digest : List Char → List Char) (b : BountyInfo) : List Char :=
  digest (keyData b)

/-- Lowercasing distributes over `" ".join` (space is fixed by `toLower`). -/
theorem lowerChars_joinSpace :
    ∀ ts : List (List Char), lowerChars (joinSpace ts) = joinSpace (ts.map lowerChars) := by
  intro ts
  induction ts with
  | nil => rfl
  | cons t rest ih =>
    cases rest with
    | nil => rfl
    | cons t2 rest2 =>
      show lowerChars (t ++ ' ' :: joinSpace (t2 :: rest2)) = _
      rw [lowerChars, List.map_append]
      simp only [List.map_cons]
      rw [show Char.toLower ' ' = ' ' from rfl]
      rw [show List.map Char.toLower (joinSpace (t2 :: rest2)) = lowerChars (joinSpace (t2 :: rest2)) from rfl]
      rw [ih]
      rfl

/-- The reason normalization equals the space-join of the case-folded
whitespace tokens, with no emptiness side condition. -/
theorem normReason_eq (r : List Char) :
    normReason r = joinSpace ((pySplit (pyStrip r)).map lowerChars) := by
  unfold normReason
  split_ifs with h
  · subst h; rfl
  · exact lowerChars_joinSpace _

/-- C4: the dedup key is a pure function of (target, reward, quantity,
normalized lister, normalized reason); postings differing only in case or
whitespace of the reason get the same key; anonymous postings agreeing on
the other fields get the same key regardless of lister identity. -/
theorem c4_bounty_dedup_key (digest : List Char → List Char) (b1 b2 : BountyInfo) :
    (b1.target_id = b2.target_id → b1.reward = b2.reward → b1.quantity = b2.quantity →
      normLister b1 = normLister b2 → normReason b1.reason = normReason b2.reason →
      unique_key digest b1 = unique_key digest b2) ∧
    (b1.target_id = b2.target_id → b1.reward = b2.reward → b1.quantity = b2.quantity →
      b1.is_anonymous = b2.is_anonymous → b1.lister_id = b2.lister_id →
      b1.lister_name = b2.lister_name →
      (pySplit (pyStrip b1.reason)).map lowerChars
        = (pySplit (pyStrip b2.reason)).map lowerChars →
      unique_key digest b1 = unique_key digest b2) ∧
    (b1.is_anonymous = true → b2.is_anonymous = true →
      b1.target_id = b2.target_id → b1.reward = b2.reward → b1.quantity = b2.quantity →
      b1.reason = b2.reason →
      unique_key digest b1 = unique_key digest b2) := by
  refine ⟨?_, ?_, ?_⟩
  · intro h1 h2 h3 h4 h5
    unfold unique_key keyData
    rw [h1, h2, h3, h4, h5]
  · intro h1 h2 h3 h4 h5 h6 h7
    have hraw : listerRaw b1 = listerRaw b2 := by
      unfold listerRaw listerNameOr
      rw [h5, h6]
    have hlister : normLister b1 = normLister b2 := by
      unfold normLister
      rw [h4, hraw]
    have hreason : normReason b1.reason = normReason b2.reason := by
      rw [normReason_eq, normReason_eq, h7]
    unfold unique_key keyData
    rw [h1, h2, h3, hlister, hreason]
  · intro ha1 ha2 h1 h2 h3 h4
    have hlister : normLister b1 = normLister b2 := by
      unfold normLister
      rw [ha1, ha2, if_pos rfl, if_pos rfl]
    unfold unique_key keyData
    rw [h1, h2, h3, hlister, h4]

/-- A posting with a shouty, oddly spaced reason. -/
def bountyCaseA : BountyInfo :=
  ⟨12345, "Victim".data, 500000, 2, some 777, some "Hunter".data, false,
   "Stole  my LOOT".data, some 100⟩

/-- The same posting with the reason re-cased and re-spaced. -/
def bountyCaseB : BountyInfo :=
  { bountyCaseA with reason := " stole MY loot ".data }

/-- An anonymous posting listed by user 1. -/
def bountyAnonA : BountyInfo :=
  ⟨54321, "Target".data, 250000, 1, some 1, some "Someone".data, true,
   "revenge".data, some 200⟩

/-- The same anonymous posting listed by user 2 under another name. -/
def bountyAnonB : BountyInfo :=
  { bountyAnonA with lister_id := some 2, lister_name := none }

/-- Witness for C4: the case/whitespace-varied reasons and the two
anonymous postings with different listers produce equal keys. -/
theorem c4_bounty_dedup_key_witness :
    unique_key (fun s => s) bountyCaseA = unique_key (fun s => s) bountyCaseB ∧
    unique_key (fun s => s) bountyAnonA = unique_key (fun s => s) bountyAnonB :=
  ⟨(c4_bounty_dedup_key (fun s => s) bountyCaseA bountyCaseB).2.1
      rfl rfl rfl rfl rfl rfl (by decide),
   (c4_bounty_dedup_key (fun s => s) bountyAnonA bountyAnonB).2.2
      rfl rfl rfl rfl rfl rfl⟩

/- ---------------------------------------------------------------------
   Bounty monitor state (bounty.py `BountyMonitor`, `check_bounties`
   lines 501-570, `_save_cache` 371-385, `_clean_old_cache_entries`
   387-395)
   --------------------------------------------------------------------- -/

/-- The JSON cache file written by `_save_cache` (the source serializes the
key set as a sorted list; the key *set* is modelled, in insertion order). -/
structure CacheFile where
  known_keys : List (List Char)
  total_found : Nat
  total_checks : Nat
  last_check : Option Nat
deriving DecidableEq, Repr

/-- The mutable `BountyMonitor` state touched by `check_bounties`:
`known_bounty_keys` (a set, modelled as an insertion-ordered duplicate-free
list), the two counters, `last_check`, and the persisted cache file
contents. -/
structure BMState where
  known_bounty_keys : List (List Char)
  total_bounties_found : Nat
  total_checks_performed : Nat
  last_check : Option Nat
  cache_file : Option CacheFile
deriving DecidableEq, Repr

/-- The accumulation loop of `check_bounties`: for each posting whose
`unique_key` is not yet known, append it to the new-bounty list and add its
key to the known set. Returns (new bounties, updated key set). -/
def bountyCheckFold (digest : List Char → List Char) :
    List (List Char) → List BountyInfo → List BountyInfo × List (List Char)
  | known, [] => ([], known)
  | known, b :: rest =>
    if unique_key digest b ∈ known then bountyCheckFold digest known rest
    else
      let r := bountyCheckFold digest (known ++ [unique_key digest b]) rest
      (b :: r.1, r.2)

/-- `_clean_old_cache_entries`: once the key set exceeds 10000 entries keep
only the last 5000 of its enumeration (insertion order in this model; the
source enumerates an unordered Python set). -/
def cleanKeys (ks : List (List Char)) : List (List Char) :=
  if 10000 < ks.length then ks.drop (ks.length - 5000) else ks

/-- The statistics/persistence tail of `check_bounties` (lines 561-568):
bump `total_checks_performed`, add to `total_bounties_found` when new
bounties were found, stamp `last_check`, rewrite the cache file
(`_save_cache`) and only then trim the in-memory set
(`_clean_old_cache_entries`). -/
def finishCheck (st : BMState) (new : List BountyInfo) (known' : List (List Char))
    (nowT : Nat) : BMState :=
  let tc := st.total_checks_performed + 1
  let tf := if new = [] then st.total_bounties_found else st.total_bounties_found + new.length
  { known_bounty_keys := cleanKeys known',
    total_bounties_found := tf,
    total_checks_performed := tc,
    last_check := some nowT,
    cache_file := some ⟨known', tf, tc, some nowT⟩ }

/-- The synthetic posting fabricated for index `i` in test mode
(lines 507-518). -/
def testBounty (i : Nat) (nowT : Nat) : BountyInfo :=
  { target_id := 999999 + (i : Int),
    target_name := ("TestPlayer" ++ toString i).data,
    reward := 1000 * (i : Int),
    quantity := 1,
    lister_id := none,
    lister_name := some ("Tester".data),
    is_anonymous := false,
    reason := ("Test bounty #" ++ toString i).data,
    posted_time := some nowT }

/-- The synthetic postings fabricated by `for i in range(1, test_count + 1)`
(line 507). -/
def testPosts (test_count nowT : Nat) : List BountyInfo :=
  (List.range test_count).map (fun j => testBounty (j + 1) nowT)

/-- The flattened collection of postings a real cycle inspects: each
successfully fetched member's bounties, with `bounty.target_name` rewritten
to the member's name (line 545). `members` carries only the subjects whose
fetch succeeded (a failed subject is skipped by the `except` at line 557). -/
def memberPosts (members : List (List Char × List BountyInfo)) : List BountyInfo :=
  members.flatMap (fun m => m.2.map (fun b => { b with target_name := m.1 }))

/-- `BountyMonitor.check_bounties(test_count)` as a state transition.
Inputs: the monitor state, `test_count`, the upstream member postings (used
only on the real path), and the current time. Output: the returned
new-bounty list, the successor state, and the number of API requests the
path issues (0 for the synthetic path, 1 for the member list plus one per
member otherwise). An empty member list returns early (line 532) without
touching statistics. -/
def check_bounties (digest : List Char → List Char) (st : BMState) (test_count : Nat)
    (members : List (List Char × List BountyInfo)) (nowT : Nat) :
    List BountyInfo × BMState × Nat :=
  if 0 < test_count then
    let posts := testPosts test_count nowT
    let r := bountyCheckFold digest st.known_bounty_keys posts
    (r.1, finishCheck st r.1 r.2 nowT, 0)
  else if members = [] then ([], st, 1)
  else
    let posts := memberPosts members
    let r := bountyCheckFold digest st.known_bounty_keys posts
    (r.1, finishCheck st r.1 r.2 nowT, 1 + members.length)

/-- Keys already known survive the accumulation loop. -/
theorem bountyCheckFold_mem_mono (digest : List Char → List Char) :
    ∀ posts known k, k ∈ known → k ∈ (bountyCheckFold digest known posts).2 := by
  intro posts
  induction posts with
  | nil => intro known k hk; exact hk
  | cons b rest ih =>
    intro known k hk
    by_cases hb : unique_key digest b ∈ known
    · simpa [bountyCheckFold, hb] using ih known k hk
    · simpa [bountyCheckFold, hb] using
        ih (known ++ [unique_key digest b]) k (List.mem_append_left _ hk)

/-- After the loop, the key of every inspected posting is known. -/
theorem bountyCheckFold_key_mem (digest : List Char → List Char) :
    ∀ posts known b, b ∈ posts →
      unique_key digest b ∈ (bountyCheckFold digest known posts).2 := by
  intro posts
  induction posts with
  | nil => intro known b hb; cases hb
  | cons c rest ih =>
    intro known b hb
    by_cases hc : unique_key digest c ∈ known
    · rcases List.mem_cons.mp hb with hb | hb
      · subst hb
        simpa [bountyCheckFold, hc] using bountyCheckFold_mem_mono digest rest known _ hc
      · simpa [bountyCheckFold, hc] using ih known b hb
    · rcases List.mem_cons.mp hb with hb | hb
      · subst hb
        simpa [bountyCheckFold, hc] using
          bountyCheckFold_mem_mono digest rest (known ++ [unique_key digest b]) _
            (List.mem_append_right _ (List.mem_singleton.mpr rfl))
      · simpa [bountyCheckFold, hc] using ih (known ++ [unique_key digest c]) b hb
/-- If every posting's key is already known the loop reports nothing and
leaves the key set unchanged. -/
theorem bountyCheckFold_all_known (digest : List Char → List Char) :
    ∀ posts known, (∀ b ∈ posts, unique_key digest b ∈ known) →
      bountyCheckFold digest known posts = ([], known) := by
  intro posts
  induction posts with
  | nil => intro known _; rfl
  | cons b rest ih =>
    intro known h
    have hb : unique_key digest b ∈ known := h b (List.mem_cons_self _ _)
    simpa [bountyCheckFold, hb] using ih known (fun c hc => h c (List.mem_cons_of_mem _ hc))

/-- The loop grows the key set by at most one key per posting. -/
theorem bountyCheckFold_len (digest : List Char → List Char) :
    ∀ posts known,
      (bountyCheckFold digest known posts).2.length ≤ known.length + posts.length := by
  intro posts
  induction posts with
  | nil => intro known; simp [bountyCheckFold]
  | cons b rest ih =>
    intro known
    by_cases hb : unique_key digest b ∈ known
    · have := ih known
      simp only [bountyCheckFold, if_pos hb, List.length_cons]
      omega
    · have := ih (known ++ [unique_key digest b])
      simp only [bountyCheckFold, if_neg hb, List.length_cons]
      simp only [List.length_append, List.length_singleton] at this
      omega

/-- A synthetic test posting's dedup key does not depend on the fabrication
time (the key never reads `posted_time`). -/
theorem testBounty_key_time (digest : List Char → List Char) (i t t' : Nat) :
    unique_key digest (testBounty i t) = unique_key digest (testBounty i t') := rfl

/-- C5: the bounty check is idempotent over the persisted dedup set — for a
fixed upstream posting collection (small enough that the trim heuristic
stays idle), every inspected posting's key is known after one real check,
so an immediately repeated real check reports no new bounties. -/
theorem c5_bounty_check_idempotent (digest : List Char → List Char) (st : BMState)
    (members : List (List Char × List BountyInfo)) (now1 now2 : Nat)
    (hcap : st.known_bounty_keys.length + (memberPosts members).length ≤ 10000) :
    (∀ b ∈ memberPosts members,
      unique_key digest b ∈
        (check_bounties digest st 0 members now1).2.1.known_bounty_keys) ∧
    (check_bounties digest
        (check_bounties digest st 0 members now1).2.1 0 members now2).1 = [] := by
  by_cases hm : members = []
  · subst hm
    constructor
    · intro b hb
      simp [memberPosts] at hb
    · rfl
  · have hlen := bountyCheckFold_len digest (memberPosts members) st.known_bounty_keys
    have hclean :
        cleanKeys (bountyCheckFold digest st.known_bounty_keys (memberPosts members)).2 =
          (bountyCheckFold digest st.known_bounty_keys (memberPosts members)).2 := by
      unfold cleanKeys
      rw [if_neg]
      omega
    have heq1 : check_bounties digest st 0 members now1 =
        ((bountyCheckFold digest st.known_bounty_keys (memberPosts members)).1,
         finishCheck st (bountyCheckFold digest st.known_bounty_keys (memberPosts members)).1
           (bountyCheckFold digest st.known_bounty_keys (memberPosts members)).2 now1,
         1 + members.length) := by
      simp only [check_bounties, if_neg (lt_irrefl 0), if_neg hm]
    have hknown1 :
        (check_bounties digest st 0 members now1).2.1.known_bounty_keys =
          (bountyCheckFold digest st.known_bounty_keys (memberPosts members)).2 := by
      rw [heq1]
      exact hclean
    constructor
    · intro b hb
      rw [hknown1]
      exact bountyCheckFold_key_mem digest (memberPosts members) st.known_bounty_keys b hb
    · simp only [check_bounties, if_neg (lt_irrefl 0), if_neg hm]
      have hfk : (finishCheck st
          (bountyCheckFold digest st.known_bounty_keys (memberPosts members)).1
          (bountyCheckFold digest st.known_bounty_keys (memberPosts members)).2
          now1).known_bounty_keys
          = (bountyCheckFold digest st.known_bounty_keys (memberPosts members)).2 := by
        simp only [finishCheck]
        exact hclean
      rw [hfk]
      rw [bountyCheckFold_all_known digest (memberPosts members) _
        (fun b hb => bountyCheckFold_key_mem digest (memberPosts members) st.known_bounty_keys b hb)]

/-- A monitor state with an empty cache, as on first startup. -/
def emptyBMState : BMState := ⟨[], 0, 0, none, none⟩

/-- A one-member upstream collection carrying one posting. -/
def sampleMembers : List (List Char × List BountyInfo) :=
  [("Alice".data, [bountyAnonA])]

/-- Witness for C5: starting from an empty cache, a repeated real check over
the same single-member collection reports nothing the second time. -/
theorem c5_bounty_check_idempotent_witness :
    (check_bounties (fun s => s)
        (check_bounties (fun s => s) emptyBMState 0 sampleMembers 1).2.1
        0 sampleMembers 2).1 = [] :=
  (c5_bounty_check_idempotent (fun s => s) emptyBMState sampleMembers 1 2 (by decide)).2

/-- C10: for every `test_count > 0`, `check_bounties` fabricates the
synthetic postings without issuing any API call (the result is independent
of the upstream collection and the request count is 0), yet mutates the
persistent state exactly like a real cycle: the synthetic keys land in
`known_bounty_keys`, `total_checks_performed` is incremented,
`total_bounties_found` grows by the number of new bounties when there are
any, `last_check` is stamped, and the cache file is rewritten with the
updated contents — so an immediately repeated call with the same
`test_count` returns an empty list. (Stated below the 10000-entry trim
threshold, where the in-memory set and the saved set coincide.) -/
theorem c10_test_mode_frame (digest : List Char → List Char) (st : BMState) (n : Nat)
    (members members' : List (List Char × List BountyInfo)) (now1 now2 : Nat)
    (hn : 0 < n) (hcap : st.known_bounty_keys.length + n ≤ 10000) :
    ∃ new st1,
      check_bounties digest st n members now1 = (new, st1, 0) ∧
      check_bounties digest st n members' now1 = (new, st1, 0) ∧
      (∀ j, j < n → unique_key digest (testBounty (j + 1) now1) ∈ st1.known_bounty_keys) ∧
      st1.total_checks_performed = st.total_checks_performed + 1 ∧
      (new ≠ [] → st1.total_bounties_found = st.total_bounties_found + new.length) ∧
      (new = [] → st1.total_bounties_found = st.total_bounties_found) ∧
      st1.last_check = some now1 ∧
      st1.cache_file = some ⟨st1.known_bounty_keys, st1.total_bounties_found,
        st1.total_checks_performed, st1.last_check⟩ ∧
      (check_bounties digest st1 n members now2).1 = [] := by
  have hlen : (bountyCheckFold digest st.known_bounty_keys (testPosts n now1)).2.length ≤
      st.known_bounty_keys.length + n := by
    have h1 := bountyCheckFold_len digest (testPosts n now1) st.known_bounty_keys
    have h2 : (testPosts n now1).length = n := by simp [testPosts]
    omega
  have hclean : cleanKeys (bountyCheckFold digest st.known_bounty_keys (testPosts n now1)).2 =
      (bountyCheckFold digest st.known_bounty_keys (testPosts n now1)).2 := by
    unfold cleanKeys
    rw [if_neg]
    omega
  have heq : ∀ ms, check_bounties digest st n ms now1 =
      ((bountyCheckFold digest st.known_bounty_keys (testPosts n now1)).1,
       finishCheck st (bountyCheckFold digest st.known_bounty_keys (testPosts n now1)).1
         (bountyCheckFold digest st.known_bounty_keys (testPosts n now1)).2 now1, 0) := by
    intro ms
    simp only [check_bounties, if_pos hn]
  have hfk : (finishCheck st (bountyCheckFold digest st.known_bounty_keys (testPosts n now1)).1
      (bountyCheckFold digest st.known_bounty_keys (testPosts n now1)).2
      now1).known_bounty_keys
      = (bountyCheckFold digest st.known_bounty_keys (testPosts n now1)).2 := by
    simp only [finishCheck]
    exact hclean
  refine ⟨_, _, heq members, heq members', ?_, ?_, ?_, ?_, ?_, ?_, ?_⟩
  · intro j hj
    rw [hfk]
    exact bountyCheckFold_key_mem digest (testPosts n now1) st.known_bounty_keys _
      (by unfold testPosts; exact List.mem_map.mpr ⟨j, List.mem_range.mpr hj, rfl⟩)
  · rfl
  · intro h
    simp [finishCheck, h]
  · intro h
    simp [finishCheck, h]
  · rfl
  · simp only [finishCheck]
    rw [hclean]
  · simp only [check_bounties, if_pos hn]
    rw [hfk]
    have hall : ∀ b ∈ testPosts n now2,
        unique_key digest b ∈
          (bountyCheckFold digest st.known_bounty_keys (testPosts n now1)).2 := by
      intro b hb
      obtain ⟨j, hj, rfl⟩ := List.mem_map.mp hb
      rw [testBounty_key_time digest (j + 1) now2 now1]
      exact bountyCheckFold_key_mem digest (testPosts n now1) st.known_bounty_keys _
        (by unfold testPosts; exact List.mem_map.mpr ⟨j, hj, rfl⟩)
    rw [bountyCheckFold_all_known digest (testPosts n now2) _ hall]

/-- Witness for C10: two test bounties from an empty cache issue no API
request, and repeating the same test call reports nothing new. -/
theorem c10_test_mode_frame_witness :
    (check_bounties (fun s => s) emptyBMState 2 [] 5).2.2 = 0 ∧
    (check_bounties (fun s => s)
        (check_bounties (fun s => s) emptyBMState 2 [] 5).2.1 2 [] 6).1 = [] := by
  obtain ⟨new, st1, h1, h2, h3, h4, h5, h6, h7, h8, h9⟩ :=
    c10_test_mode_frame (fun s => s) emptyBMState 2 [] sampleMembers 5 6
      (by decide) (by decide)
  constructor
  · rw [h1]
  · rw [h1]
    exact h9

/- ---------------------------------------------------------------------
   Progress bar (war.py `WarMonitor.create_progress_bar`, lines 350-357)
   --------------------------------------------------------------------- -/

/-- One rendered bar character: the green (filled) or white (empty) block. -/
inductive Seg where
  | filledSeg
  | emptySeg
deriving DecidableEq, Repr

/-- Python string repetition `s * n` for a single character: `n` copies,
and the empty string when `n` is zero or negative. -/
def pyRepeat (s : Seg) (n : Int) : List Seg := List.replicate n.toNat s

/-- Python `int()` applied to an exact value: truncation toward zero. -/
def pyInt (q : ℚ) : Int := if 0 ≤ q then ⌊q⌋ else -⌊-q⌋

/-- `create_progress_bar(current, target, length)` (war.py 350-357), with
the float arithmetic idealized over ℚ:

    if target <= 0: return "⬜" * length
    progress = min(current / target, 1.0)
    filled = int(progress * length)
    return "🟩" * filled + "⬜" * (length - filled)
-/
def create_progress_bar (current target : Int) (length : Int) : List Seg :=
  if target ≤ 0 then pyRepeat Seg.emptySeg length
  else
    let progress : ℚ := min ((current : ℚ) / (target : ℚ)) 1
    let filled : Int := pyInt (progress * (length : ℚ))
    pyRepeat Seg.filledSeg filled ++ pyRepeat Seg.emptySeg (length - filled)

/-- Number of filled segments in a rendered bar. -/
def countFilled (bar : List Seg) : Nat := bar.count Seg.filledSeg

/-- C6 counterexample: at `score = -5, target = 10, length = 10` the bar
renders 15 segments, not `length = 10` — the negative `filled` value adds
extra empty segments, so the total segment count is not `length` for every
input (the claim quantifies over every score). -/
theorem c6_progress_bar_counterexample :
    (create_progress_bar (-5) 10 10).length = 15 ∧ (15 : Nat) ≠ (10 : Int).toNat := by
  constructor
  · have hp : min (((-5 : Int) : ℚ) / ((10 : Int) : ℚ)) 1 = -1/2 := by
      rw [min_eq_left (by norm_num)]
      norm_num
    have hf : pyInt ((-1/2 : ℚ) * ((10 : Int) : ℚ)) = -5 := by
      rw [show ((-1/2 : ℚ) * ((10 : Int) : ℚ)) = -5 by norm_num]
      rw [pyInt, if_neg (by norm_num)]
      norm_num
    simp only [create_progress_bar, if_neg (by norm_num : ¬ (10 : Int) ≤ 0), hp, hf]
    decide
  · decide

/-- C6 (amended): for every nonnegative score and length the bar renders
exactly `length` segments, at most `length` of them filled, `target <= 0`
yields the all-empty bar of `length` segments without dividing, and for a
positive target the filled count is the discretized `score/target` clamped
to `[0, length]`. (For a negative score the unclamped negative `filled`
value inflates the empty run past `length`, as the counterexample shows.) -/
theorem c6_progress_bar_bounds (current target length : Int)
    (hc : 0 ≤ current) (hl : 0 ≤ length) :
    (create_progress_bar current target length).length = length.toNat ∧
    countFilled (create_progress_bar current target length) ≤ length.toNat ∧
    (target ≤ 0 → create_progress_bar current target length
        = List.replicate length.toNat Seg.emptySeg) ∧
    (0 < target → countFilled (create_progress_bar current target length)
        = min (pyInt (min ((current : ℚ) / (target : ℚ)) 1 * (length : ℚ))).toNat
            length.toNat) := by
  by_cases ht : target ≤ 0
  · have hbar : create_progress_bar current target length
        = List.replicate length.toNat Seg.emptySeg := by
      simp [create_progress_bar, if_pos ht, pyRepeat]
    refine ⟨?_, ?_, fun _ => hbar, fun h0 => absurd h0 (not_lt.mpr ht)⟩
    · rw [hbar, List.length_replicate]
    · rw [hbar]
      rw [countFilled, List.count_replicate, if_neg (by decide)]
      exact Nat.zero_le _
  · push_neg at ht
    have htq : (0 : ℚ) < (target : ℚ) := by exact_mod_cast ht
    have hcq : (0 : ℚ) ≤ (current : ℚ) := by exact_mod_cast hc
    have hlq : (0 : ℚ) ≤ (length : ℚ) := by exact_mod_cast hl
    have hq0 : 0 ≤ min ((current : ℚ) / (target : ℚ)) 1 :=
      le_min (div_nonneg hcq htq.le) zero_le_one
    have hq1 : min ((current : ℚ) / (target : ℚ)) 1 ≤ 1 := min_le_right _ _
    have hx0 : 0 ≤ min ((current : ℚ) / (target : ℚ)) 1 * (length : ℚ) :=
      mul_nonneg hq0 hlq
    have hpy : pyInt (min ((current : ℚ) / (target : ℚ)) 1 * (length : ℚ))
        = ⌊min ((current : ℚ) / (target : ℚ)) 1 * (length : ℚ)⌋ := by
      rw [pyInt, if_pos hx0]
    have h0f : 0 ≤ ⌊min ((current : ℚ) / (target : ℚ)) 1 * (length : ℚ)⌋ :=
      Int.floor_nonneg.mpr hx0
    have hfL : ⌊min ((current : ℚ) / (target : ℚ)) 1 * (length : ℚ)⌋ ≤ length := by
      have hle : min ((current : ℚ) / (target : ℚ)) 1 * (length : ℚ) ≤ (length : ℚ) := by
        calc min ((current : ℚ) / (target : ℚ)) 1 * (length : ℚ)
            ≤ 1 * (length : ℚ) := mul_le_mul_of_nonneg_right hq1 hlq
          _ = (length : ℚ) := one_mul _
      have := Int.floor_le_floor hle
      rwa [Int.floor_intCast] at this
    have hbar : create_progress_bar current target length
        = pyRepeat Seg.filledSeg ⌊min ((current : ℚ) / (target : ℚ)) 1 * (length : ℚ)⌋
          ++ pyRepeat Seg.emptySeg
              (length - ⌊min ((current : ℚ) / (target : ℚ)) 1 * (length : ℚ)⌋) := by
      rw [create_progress_bar, if_neg (not_le.mpr ht)]
      show pyRepeat Seg.filledSeg
          (pyInt (min ((current : ℚ) / (target : ℚ)) 1 * (length : ℚ)))
          ++ pyRepeat Seg.emptySeg
             (length - pyInt (min ((current : ℚ) / (target : ℚ)) 1 * (length : ℚ))) = _
      rw [hpy]
    have hcount : countFilled (create_progress_bar current target length)
        = ⌊min ((current : ℚ) / (target : ℚ)) 1 * (length : ℚ)⌋.toNat := by
      rw [hbar, countFilled, List.count_append, pyRepeat, pyRepeat,
        List.count_replicate, List.count_replicate,
        if_pos (by decide), if_neg (by decide)]
      omega
    refine ⟨?_, ?_, fun h => absurd ht (not_lt.mpr h), fun _ => ?_⟩
    · rw [hbar, List.length_append, pyRepeat, pyRepeat,
        List.length_replicate, List.length_replicate]
      omega
    · rw [hcount]
      omega
    · rw [hcount, hpy]
      omega

/-- Witness for C6 (amended): a 7/10 score over a length-10 bar renders 10
segments with at most 10 filled. -/
theorem c6_progress_bar_bounds_witness :
    (create_progress_bar 7 10 10).length = (10 : Int).toNat ∧
    countFilled (create_progress_bar 7 10 10) ≤ (10 : Int).toNat :=
  ⟨(c6_progress_bar_bounds 7 10 10 (by decide) (by decide)).1,
   (c6_progress_bar_bounds 7 10 10 (by decide) (by decide)).2.1⟩

/- ---------------------------------------------------------------------
   War monitor message lifecycle (war.py `_send_new_war_message` 542-559,
   `_update_existing_message` 561-577, `_monitor_loop` body 601-612)
   --------------------------------------------------------------------- -/

/-- The persisted war-monitor association state (`current_war_id`,
`war_message_id`). -/
structure WarMonState where
  current_war_id : Option Int
  war_message_id : Option Int
deriving DecidableEq, Repr

/-- Outcome of `channel.fetch_message`: the message exists, raises
`discord.NotFound`, or raises another `discord.DiscordException`. -/
inductive FetchMsgResult where
  | found
  | notFound
  | httpErr
deriving DecidableEq, Repr

/-- The notification banner prefixed to a fresh war message. -/
inductive Banner where
  | scheduledBanner
  | startedBanner
deriving DecidableEq, Repr

/-- Externally visible Discord side effects of one poll cycle. -/
inductive MsgAction where
  | publish (banner : Option Banner)
  | edited (msgId : Int)
deriving DecidableEq, Repr

/-- The `content` selection of `_send_new_war_message` (lines 546-552):
a scheduled banner for SCHEDULED, a started banner for ACTIVE, none
otherwise. -/
def bannerFor (status : WarStatus) : Option Banner :=
  if status = WarStatus.scheduled then some Banner.scheduledBanner
  else if status = WarStatus.active then some Banner.startedBanner
  else none

/-- `_send_new_war_message` (lines 542-559): publish a new message with the
status banner; on success record its id, on `DiscordException` keep the
previous association. `sendRes` is the send outcome (the new message id, or
`none` for a failed send). -/
def send_new_war_message (status : WarStatus) (sendRes : Option Int)
    (st : WarMonState) : WarMonState × List MsgAction :=
  match sendRes with
  | some mid => ({ st with war_message_id := some mid }, [MsgAction.publish (bannerFor status)])
  | none => (st, [MsgAction.publish (bannerFor status)])

/-- `_update_existing_message` (lines 561-577): nothing to edit without a
recorded id; a found message is edited in place (`editOk` is the edit call's
outcome); `discord.NotFound` clears the recorded id and reports failure;
other Discord errors report failure with the id kept. -/
def update_existing_message (st : WarMonState) (fetchRes : FetchMsgResult)
    (editOk : Bool) : WarMonState × Bool × List MsgAction :=
  match st.war_message_id with
  | none => (st, false, [])
  | some mid =>
    match fetchRes with
    | FetchMsgResult.found =>
      if editOk then (st, true, [MsgAction.edited mid]) else (st, false, [])
    | FetchMsgResult.notFound => ({ st with war_message_id := none }, false, [])
    | FetchMsgResult.httpErr => (st, false, [])

/-- The war-handling body of one `_monitor_loop` cycle (lines 601-612):
a changed war id resets the association and publishes fresh; an unchanged
id edits in place, falling back to a fresh publish when the edit path
reports failure. -/
def pollCycle (st : WarMonState) (warId : Int) (status : WarStatus)
    (fetchRes : FetchMsgResult) (editOk : Bool) (sendRes : Option Int) :
    WarMonState × List MsgAction :=
  if st.current_war_id ≠ some warId then
    let st1 : WarMonState := { current_war_id := some warId, war_message_id := none }
    send_new_war_message status sendRes st1
  else
    let r := update_existing_message st fetchRes editOk
    if r.2.1 then (r.1, r.2.2)
    else
      let s := send_new_war_message status sendRes r.1
      (s.1, r.2.2 ++ s.2)

/-- C7: (i) a fetched war id differing from the persisted one resets the
message association, publishes a new notification with the status-dependent
banner (scheduled banner for SCHEDULED, started banner for ACTIVE) and
associates the fresh message id; (ii) an unchanged id with a live recorded
message edits that message in place and publishes nothing; (iii) an
unchanged id whose recorded message raises NotFound falls back to a fresh
publish and re-associates its id. -/
theorem c7_message_lifecycle (st : WarMonState) (warId : Int) (status : WarStatus)
    (fetchRes : FetchMsgResult) (editOk : Bool) (mid newMid : Int) :
    (st.current_war_id ≠ some warId →
      pollCycle st warId status fetchRes editOk (some newMid)
        = (⟨some warId, some newMid⟩, [MsgAction.publish (bannerFor status)]) ∧
      bannerFor WarStatus.scheduled = some Banner.scheduledBanner ∧
      bannerFor WarStatus.active = some Banner.startedBanner) ∧
    (st.current_war_id = some warId → st.war_message_id = some mid →
      pollCycle st warId status FetchMsgResult.found true (some newMid)
        = (st, [MsgAction.edited mid])) ∧
    (st.current_war_id = some warId → st.war_message_id = some mid →
      pollCycle st warId status FetchMsgResult.notFound editOk (some newMid)
        = ({ st with war_message_id := some newMid },
           [MsgAction.publish (bannerFor status)])) := by
  refine ⟨?_, ?_, ?_⟩
  · intro hne
    refine ⟨?_, rfl, rfl⟩
    rw [pollCycle, if_pos hne]
    rfl
  · intro heq hmsg
    rw [pollCycle, if_neg (by simp [heq])]
    simp only [update_existing_message, hmsg]
    rfl
  · intro heq hmsg
    rw [pollCycle, if_neg (by simp [heq])]
    simp only [update_existing_message, hmsg]
    rfl

/-- Witness for C7 at concrete states: a new war id 8 publishes a started
banner and records message 42; the same war id with live message 42 edits
it in place; the same war id with a deleted message re-publishes and
re-associates id 43. -/
theorem c7_message_lifecycle_witness :
    pollCycle ⟨some 7, none⟩ 8 WarStatus.active FetchMsgResult.found true (some 42)
      = (⟨some 8, some 42⟩, [MsgAction.publish (some Banner.startedBanner)]) ∧
    pollCycle ⟨some 8, some 42⟩ 8 WarStatus.active FetchMsgResult.found true (some 43)
      = (⟨some 8, some 42⟩, [MsgAction.edited 42]) ∧
    pollCycle ⟨some 8, some 42⟩ 8 WarStatus.active FetchMsgResult.notFound true (some 43)
      = (⟨some 8, some 43⟩, [MsgAction.publish (some Banner.startedBanner)]) :=
  ⟨((c7_message_lifecycle ⟨some 7, none⟩ 8 WarStatus.active FetchMsgResult.found true 0 42).1
      (by decide)).1,
   (c7_message_lifecycle ⟨some 8, some 42⟩ 8 WarStatus.active FetchMsgResult.found true 42 43).2.1
      rfl rfl,
   (c7_message_lifecycle ⟨some 8, some 42⟩ 8 WarStatus.active FetchMsgResult.notFound true 42 43).2.2
      rfl rfl⟩

/- ---------------------------------------------------------------------
   Rate limiter (war.py / bounty.py `_make_request` preamble, lines
   147-151 in both files)
   --------------------------------------------------------------------- -/

/-- `self.rate_limit_delay = 1.1` seconds. -/
def rate_limit_delay : ℚ := 11 / 10

/-- The sleep computed before a request is issued (lines 148-151 of both
clients): with `t = now - last_request`, sleep `rate_limit_delay - t` when
`t < rate_limit_delay`, else proceed immediately. -/
def rateLimitSleep (now last : ℚ) : ℚ :=
  if now - last < rate_limit_delay then rate_limit_delay - (now - last) else 0

/-- C8: a request arriving `t` seconds after the previous one with
`t < 1.1` is delayed by exactly `1.1 - t` seconds, so its issue time is at
least 1.1s after the previous request; in particular a request 0.2s after
the previous one is delayed by at least 0.9s. -/
theorem c8_rate_limit_spacing (now last : ℚ) :
    (now - last < rate_limit_delay →
      rateLimitSleep now last = rate_limit_delay - (now - last)) ∧
    (0 ≤ now - last →
      rate_limit_delay ≤ (now - last) + rateLimitSleep now last) ∧
    (now - last = 2 / 10 → 9 / 10 ≤ rateLimitSleep now last) := by
  refine ⟨?_, ?_, ?_⟩
  · intro h
    rw [rateLimitSleep, if_pos h]
  · intro h
    rw [rateLimitSleep]
    split_ifs with h2
    · linarith
    · push_neg at h2
      linarith
  · intro h
    rw [rateLimitSleep, if_pos (by rw [h]; norm_num [rate_limit_delay]), h]
    norm_num [rate_limit_delay]

/-- Witness for C8: a second request 0.2s after the first sleeps exactly
0.9s, meeting the 1.1s spacing. -/
theorem c8_rate_limit_spacing_witness :
    rateLimitSleep (2 / 10) 0 = rate_limit_delay - (2 / 10 - 0) ∧
    9 / 10 ≤ rateLimitSleep (2 / 10) 0 :=
  ⟨(c8_rate_limit_spacing (2 / 10) 0).1 (by norm_num [rate_limit_delay]),
   (c8_rate_limit_spacing (2 / 10) 0).2.2 (by norm_num)⟩

/- ---------------------------------------------------------------------
   Faction parsing and war payload handling (war.py
   `get_faction_details` 196-219, `get_war_data` 221-288,
   `create_war_embed` top branches 413-429)
   --------------------------------------------------------------------- -/

/-- The `basic.rank` sub-object of the faction payload; every field may be
absent. -/
structure RankPayload where
  level : Option Int
  name : Option String
  wins : Option Int
deriving DecidableEq, Repr

/-- The `basic` object of the faction payload; every field may be absent. -/
structure BasicPayload where
  name : Option String
  tag : Option String
  members : Option Int
  rank : Option RankPayload
  respect : Option Int
  capacity : Option Int
deriving DecidableEq, Repr

/-- A faction-endpoint response body; the `basic` key may be absent
(`data.get("basic", {})`). -/
structure FactionResponse where
  basic : Option BasicPayload
deriving DecidableEq, Repr

/-- `@dataclass FactionInfo` from war.py. -/
structure FactionInfo where
  id : Int
  name : String
  tag : String
  members : Int
  rank : Int
  rank_name : String
  respect : Int
  capacity : Int
  wins : Int
  score : Int
deriving DecidableEq, Repr

/-- The `{}` default for a missing `basic` object. -/
def emptyBasic : BasicPayload := ⟨none, none, none, none, none, none⟩

/-- The `{}` default for a missing `rank` object. -/
def emptyRank : RankPayload := ⟨none, none, none⟩

/-- `TornAPIClient.get_faction_details` (war.py 196-219): `None` for a
missing/failed response (the caught `APIError` also yields `None`),
otherwise a `FactionInfo` with each absent field defaulted (`"Unknown"`
name, `""` tag, `0` counts/levels, `"Unranked"` rank name). -/
def get_faction_details (faction_id : Int) (resp : Option FactionResponse) :
    Option FactionInfo :=
  match resp with
  | none => none
  | some data =>
    let basic := data.basic.getD emptyBasic
    let rank := basic.rank.getD emptyRank
    some { id := faction_id,
           name := basic.name.getD "Unknown",
           tag := basic.tag.getD "",
           members := basic.members.getD 0,
           rank := rank.level.getD 0,
           rank_name := rank.name.getD "Unranked",
           respect := basic.respect.getD 0,
           capacity := basic.capacity.getD 0,
           wins := rank.wins.getD 0,
           score := 0 }

/-- The `end` value of the ranked-war payload for the coercion at war.py
245-250: absent (`None`) or non-numeric values become `0`. (`end` is a Lean
keyword, hence `end_field`.) -/
inductive EndField where
  | num (n : Nat)
  | nonNum
deriving DecidableEq, Repr

/-- One entry of `ranked_war["factions"]`: an id and an optional score. -/
structure WarFactionEntry where
  id : Int
  score : Option Int
deriving DecidableEq, Repr

/-- The `wars["ranked"]` payload; every field may be absent. -/
structure RankedWar where
  war_id : Option Int
  target : Option Int
  start : Option Nat
  end_field : Option EndField
  factions : List WarFactionEntry
deriving DecidableEq, Repr

/-- The `/faction/wars` response: `wars.get("ranked")` may be absent. -/
structure WarsResponse where
  ranked : Option RankedWar
deriving DecidableEq, Repr

/-- `@dataclass WarData` from war.py (without the derived properties). -/
structure WarData where
  war_id : Int
  factions : List FactionInfo
  target_score : Int
  start_timestamp : Nat
  end_timestamp : Nat
  status : WarStatus
deriving DecidableEq, Repr

/-- The `end_timestamp` coercion of war.py 244-250. -/
def endTimestampOf (e : Option EndField) : Nat :=
  match e with
  | none => 0
  | some (EndField.num n) => n
  | some EndField.nonNum => 0

/-- `TornAPIClient.get_war_data` (war.py 221-288): `None` for a
missing/failed response; a NOT_FOUND placeholder when no ranked war is
listed; otherwise the parsed war with per-faction details fetched through
`lookup` (factions whose detail fetch fails are dropped, line 256) and the
status classified from the timestamps alone. -/
def get_war_data (resp : Option WarsResponse)
    (lookup : Int → Option FactionResponse) (now : Nat) : Option WarData :=
  match resp with
  | none => none
  | some data =>
    match data.ranked with
    | none => some ⟨0, [], 0, 0, 0, WarStatus.not_found⟩
    | some rwar =>
      let start_timestamp := rwar.start.getD 0
      let end_timestamp := endTimestampOf rwar.end_field
      let factions := rwar.factions.filterMap (fun fd =>
        (get_faction_details fd.id (lookup fd.id)).map
          (fun fi => { fi with score := fd.score.getD 0 }))
      some { war_id := rwar.war_id.getD 0,
             factions := factions,
             target_score := rwar.target.getD 0,
             start_timestamp := start_timestamp,
             end_timestamp := end_timestamp,
             status := classifyWarStatus start_timestamp end_timestamp now }

/-- The three top-level outcomes of `create_war_embed` (war.py 413-429):
the "No active ranked war found" embed, the "Insufficient faction data"
embed for fewer than two factions, and the full matchup embed. -/
inductive EmbedKind where
  | noWarFound
  | insufficientData
  | fullEmbed
deriving DecidableEq, Repr

/-- The branch order of `create_war_embed`: NOT_FOUND first, then the
faction-count guard. -/
def war_embed_kind (status : WarStatus) (nFactions : Nat) : EmbedKind :=
  if status = WarStatus.not_found then EmbedKind.noWarFound
  else if nFactions < 2 then EmbedKind.insufficientData
  else EmbedKind.fullEmbed

/-- C9: classification never crashes on missing party data — a faction
response with every field absent still yields a `FactionInfo` with the
documented defaults (0 counts/scores, "Unknown" name); `get_war_data`
classifies from the timestamps alone, succeeding whatever party details the
lookup provides; and a war that did classify (not NOT_FOUND) with fewer
than two parties renders the distinguishable insufficient-data outcome, not
the not-found one. -/
theorem c9_missing_party_data (fid : Int) (rwar : RankedWar)
    (lookup : Int → Option FactionResponse) (now : Nat)
    (status : WarStatus) (k : Nat) :
    (get_faction_details fid (some ⟨some emptyBasic⟩)
        = some ⟨fid, "Unknown", "", 0, 0, "Unranked", 0, 0, 0, 0⟩) ∧
    (get_faction_details fid (some ⟨none⟩)
        = some ⟨fid, "Unknown", "", 0, 0, "Unranked", 0, 0, 0, 0⟩) ∧
    ((get_war_data (some ⟨some rwar⟩) lookup now).map WarData.status
        = some (classifyWarStatus (rwar.start.getD 0)
            (endTimestampOf rwar.end_field) now)) ∧
    (status ≠ WarStatus.not_found → k < 2 →
      war_embed_kind status k = EmbedKind.insufficientData ∧
      EmbedKind.insufficientData ≠ EmbedKind.noWarFound) := by
  refine ⟨rfl, rfl, rfl, ?_⟩
  intro hs hk
  constructor
  · rw [war_embed_kind, if_neg hs, if_pos hk]
  · decide

/-- Witness for C9: an all-defaults faction payload, a bare ranked-war
payload classified SCHEDULED with no resolvable factions, and the
insufficient-data outcome for an ACTIVE war with one party. -/
theorem c9_missing_party_data_witness :
    (get_faction_details 9 (some ⟨some emptyBasic⟩)
        = some ⟨9, "Unknown", "", 0, 0, "Unranked", 0, 0, 0, 0⟩) ∧
    ((get_war_data (some ⟨some ⟨some 3, none, some 50, none, [⟨1, none⟩]⟩⟩)
        (fun _ => none) 10).map WarData.status
        = some (classifyWarStatus 50 0 10)) ∧
    war_embed_kind WarStatus.active 1 = EmbedKind.insufficientData :=
  ⟨(c9_missing_party_data 9 ⟨some 3, none, some 50, none, [⟨1, none⟩]⟩
      (fun _ => none) 10 WarStatus.active 1).1,
   (c9_missing_party_data 9 ⟨some 3, none, some 50, none, [⟨1, none⟩]⟩
      (fun _ => none) 10 WarStatus.active 1).2.2.1,
   ((c9_missing_party_data 9 ⟨some 3, none, some 50, none, [⟨1, none⟩]⟩
      (fun _ => none) 10 WarStatus.active 1).2.2.2 (by decide) (by decide)).1⟩
